import Mathlib

/-!
Shallow embedding of the crisis-response game engine
(`game_engine.py`, `models.py`, and the game loop of `agent_manager.py`).

Python dictionaries over the 8 fixed locations are modelled as association
lists preserving insertion order (Python dicts are insertion ordered and have
unique keys); machine-level concerns do not arise because Python integers are
unbounded, so counters are `Int`.  The single float computation
(`calculate_score`) is modelled exactly over `ℚ`, with the literal `0.1`
rendered as the rational `1/10`.  Sources of nondeterminism (`random.choice`)
and wall-clock time are explicit parameters.
-/

/-- models.EmergencyTeam -/
inductive EmergencyTeam where
  | FIRE
  | MEDICAL
  | POLICE
deriving DecidableEq

/-- models.CrisisResource -/
inductive CrisisResource where
  | LADDER
  | AMBULANCE_1
  | AMBULANCE_2
  | EVAC_ROUTE
  | WATER_SUPPLY
  | MEDICAL_SUPPLIES
deriving DecidableEq

/-- models.CrisisLocation -/
inductive CrisisLocation where
  | FLOOR_1
  | FLOOR_2
  | FLOOR_3
  | FLOOR_4
  | EAST_WING
  | WEST_WING
  | LOBBY
  | EXTERIOR
deriving DecidableEq

/-- models.CrisisEvent -/
inductive CrisisEvent where
  | FIRE_SPREADING
  | VICTIM_FOUND
  | GAS_PRESSURE
  | STRUCTURE_COLLAPSE
  | AMBULANCE_ARRIVAL
  | EVAC_ROUTE_BLOCKED
deriving DecidableEq

/-- A Python `dict[CrisisLocation, int]` as an insertion-ordered association
list with unique keys.  Lookup returns the (unique) binding. -/
def dict_get : List (CrisisLocation × Int) → CrisisLocation → Option Int
  | [], _ => none
  | p :: rest, k => if p.1 = k then some p.2 else dict_get rest k

/-- Python `d.get(k, v0)`. -/
def dict_getD (d : List (CrisisLocation × Int)) (k : CrisisLocation) (v0 : Int) : Int :=
  (dict_get d k).getD v0

/-- Python `d[k] = v`: update in place if the key is present (keeping its
position), otherwise append the new binding at the end. -/
def dict_set : List (CrisisLocation × Int) → CrisisLocation → Int → List (CrisisLocation × Int)
  | [], k, v => [(k, v)]
  | p :: rest, k, v => if p.1 = k then (k, v) :: rest else p :: dict_set rest k v

/-- Python `del d[k]`: remove the (unique) binding of `k`. -/
def dict_del : List (CrisisLocation × Int) → CrisisLocation → List (CrisisLocation × Int)
  | [], _ => []
  | p :: rest, k => if p.1 = k then rest else p :: dict_del rest k

/-- models.CrisisState (timestampless fields only; `time_elapsed` in seconds). -/
structure CrisisState where
  fire_locations : List CrisisLocation
  victim_locations : List (CrisisLocation × Int)
  blocked_routes : List CrisisLocation
  gas_pressure_level : Int
  building_stability : Int
  time_elapsed : Int
  crisis_events : List CrisisEvent
deriving DecidableEq

/-- models.ResourceAllocation -/
structure ResourceAllocation where
  ladder_location : Option CrisisLocation
  ladder_owner : Option EmergencyTeam
  ladder_eta : Option Int
  ambulance_1_location : Option CrisisLocation
  ambulance_1_owner : Option EmergencyTeam
  ambulance_1_eta : Option Int
  ambulance_2_location : Option CrisisLocation
  ambulance_2_owner : Option EmergencyTeam
  ambulance_2_eta : Option Int
  evac_route_status : String
  evac_route_controller : Option EmergencyTeam
deriving DecidableEq

/-- models.TeamStatus (the `last_transmission_time` timestamp is omitted). -/
structure TeamStatus where
  team : EmergencyTeam
  location : CrisisLocation
  resources_available : List CrisisResource
  priority : String
  victims_saved : Int
  fire_contained : Int
  people_evacuated : Int
  transmissions_used : Int
deriving DecidableEq

/-- models.CoordinationEvent (the `timestamp` field is omitted). -/
structure CoordinationEvent where
  event_type : String
  teams_involved : List EmergencyTeam
  resource : Option CrisisResource
  location : Option CrisisLocation
  outcome : String
  lives_saved : Int
  time_saved : Int
deriving DecidableEq

/-- models.EmergencyVocabulary (the string-to-string vocabulary map is
omitted; only the three counters feed the modelled operations). -/
structure EmergencyVocabulary where
  team : EmergencyTeam
  shorthand_developed : Int
  coordination_terms : Int
  urgency_terms : Int
deriving DecidableEq

/-- models.GameState restricted to the fields the core engine operations read
or write (`game_id`, `start_time` and the message log are I/O-facing and not
consulted by the modelled functions). -/
structure GameState where
  crisis_state : CrisisState
  resource_allocation : ResourceAllocation
  team_statuses : EmergencyTeam → TeamStatus
  coordination_events : List CoordinationEvent
  emergency_vocabulary : EmergencyTeam → EmergencyVocabulary
  game_duration : Int

/-- The iteration order of the three-team dictionaries built in
`initialize_game` (Python dicts iterate in insertion order). -/
def team_list : List EmergencyTeam :=
  [EmergencyTeam.FIRE, EmergencyTeam.MEDICAL, EmergencyTeam.POLICE]

/-- Mutable per-engine counters set in `CrisisGameEngine.__init__`. -/
structure EngineState where
  crisis_timer : Int
  next_crisis_time : Int
deriving DecidableEq

/-- Models `CrisisGameEngine.__init__`: `crisis_timer = 0`, `next_crisis_time = 15`. -/
def eng_init : EngineState := { crisis_timer := 0, next_crisis_time := 15 }

/-- Models `CrisisGameEngine.initialize_game` (uuid and wall-clock start time
omitted). -/
def init_game : GameState :=
  { crisis_state :=
      { fire_locations := [CrisisLocation.FLOOR_2, CrisisLocation.EAST_WING]
        victim_locations :=
          [(CrisisLocation.FLOOR_3, 2), (CrisisLocation.FLOOR_4, 1), (CrisisLocation.LOBBY, 3)]
        blocked_routes := [CrisisLocation.FLOOR_1]
        gas_pressure_level := 3
        building_stability := 7
        time_elapsed := 0
        crisis_events := [] }
    resource_allocation :=
      { ladder_location := some CrisisLocation.EXTERIOR
        ladder_owner := none
        ladder_eta := none
        ambulance_1_location := none
        ambulance_1_owner := none
        ambulance_1_eta := none
        ambulance_2_location := none
        ambulance_2_owner := none
        ambulance_2_eta := none
        evac_route_status := "BLOCKED"
        evac_route_controller := none }
    team_statuses := fun t =>
      match t with
      | EmergencyTeam.FIRE =>
          { team := EmergencyTeam.FIRE, location := CrisisLocation.EXTERIOR
            resources_available := [CrisisResource.LADDER, CrisisResource.WATER_SUPPLY]
            priority := "FIRE_SUPPRESSION"
            victims_saved := 0, fire_contained := 0, people_evacuated := 0
            transmissions_used := 0 }
      | EmergencyTeam.MEDICAL =>
          { team := EmergencyTeam.MEDICAL, location := CrisisLocation.LOBBY
            resources_available := [CrisisResource.MEDICAL_SUPPLIES]
            priority := "VICTIM_RESCUE"
            victims_saved := 0, fire_contained := 0, people_evacuated := 0
            transmissions_used := 0 }
      | EmergencyTeam.POLICE =>
          { team := EmergencyTeam.POLICE, location := CrisisLocation.EXTERIOR
            resources_available := []
            priority := "EVACUATION_CONTROL"
            victims_saved := 0, fire_contained := 0, people_evacuated := 0
            transmissions_used := 0 }
    coordination_events := []
    emergency_vocabulary := fun t =>
      { team := t, shorthand_developed := 0, coordination_terms := 0, urgency_terms := 0 }
    game_duration := 60 }

/-- Models `CrisisGameEngine.process_resource_request` (mutation rendered as
returning the updated state alongside the Python return value).  Call sites in
`agent_manager._process_resource_request` use the default `duration = 5`. -/
def process_resource_request (s : GameState) (requesting_team : EmergencyTeam)
    (resource : CrisisResource) (locn : CrisisLocation) (duration : Int) :
    Bool × GameState :=
  let r := s.resource_allocation
  match resource with
  | CrisisResource.LADDER =>
    match r.ladder_owner with
    | none =>
        (true, { s with resource_allocation :=
          { r with ladder_owner := some requesting_team
                   ladder_location := some locn
                   ladder_eta := some duration } })
    | some _ => (false, s)
  | CrisisResource.AMBULANCE_1 =>
    match r.ambulance_1_owner with
    | none =>
        (true, { s with resource_allocation :=
          { r with ambulance_1_owner := some requesting_team
                   ambulance_1_location := some locn
                   ambulance_1_eta := some duration } })
    | some _ => (false, s)
  | CrisisResource.AMBULANCE_2 =>
    match r.ambulance_2_owner with
    | none =>
        (true, { s with resource_allocation :=
          { r with ambulance_2_owner := some requesting_team
                   ambulance_2_location := some locn
                   ambulance_2_eta := some duration } })
    | some _ => (false, s)
  | _ => (false, s)

/-- C4: a request on an owned tracked resource returns false and leaves the
state untouched; a request on a free tracked resource returns true and sets
exactly that resource's owner/location/remaining-time triple. -/
theorem c4_resource_request_spec (s : GameState) (team : EmergencyTeam)
    (locn : CrisisLocation) (dur : Int) :
    (s.resource_allocation.ladder_owner ≠ none →
      process_resource_request s team CrisisResource.LADDER locn dur = (false, s)) ∧
    (s.resource_allocation.ladder_owner = none →
      process_resource_request s team CrisisResource.LADDER locn dur =
        (true, { s with resource_allocation :=
          { s.resource_allocation with ladder_owner := some team
                                       ladder_location := some locn
                                       ladder_eta := some dur } })) ∧
    (s.resource_allocation.ambulance_1_owner ≠ none →
      process_resource_request s team CrisisResource.AMBULANCE_1 locn dur = (false, s)) ∧
    (s.resource_allocation.ambulance_1_owner = none →
      process_resource_request s team CrisisResource.AMBULANCE_1 locn dur =
        (true, { s with resource_allocation :=
          { s.resource_allocation with ambulance_1_owner := some team
                                       ambulance_1_location := some locn
                                       ambulance_1_eta := some dur } })) ∧
    (s.resource_allocation.ambulance_2_owner ≠ none →
      process_resource_request s team CrisisResource.AMBULANCE_2 locn dur = (false, s)) ∧
    (s.resource_allocation.ambulance_2_owner = none →
      process_resource_request s team CrisisResource.AMBULANCE_2 locn dur =
        (true, { s with resource_allocation :=
          { s.resource_allocation with ambulance_2_owner := some team
                                       ambulance_2_location := some locn
                                       ambulance_2_eta := some dur } })) := by
  refine ⟨?_, ?_, ?_, ?_, ?_, ?_⟩ <;> intro h <;>
    simp only [process_resource_request] <;>
    [skip; skip; skip; skip; skip; skip] <;>
    first
      | (rw [h])
      | (rcases ho : s.resource_allocation.ladder_owner with _ | t0
         · exact absurd ho h
         · simp [ho])
      | (rcases ho : s.resource_allocation.ambulance_1_owner with _ | t0
         · exact absurd ho h
         · simp [ho])
      | (rcases ho : s.resource_allocation.ambulance_2_owner with _ | t0
         · exact absurd ho h
         · simp [ho])

/-- C10: a request naming an untracked resource kind always returns false and
leaves the state completely unchanged. -/
theorem c10_untracked_resource_request (s : GameState) (team : EmergencyTeam)
    (resource : CrisisResource) (locn : CrisisLocation) (dur : Int)
    (h1 : resource ≠ CrisisResource.LADDER)
    (h2 : resource ≠ CrisisResource.AMBULANCE_1)
    (h3 : resource ≠ CrisisResource.AMBULANCE_2) :
    process_resource_request s team resource locn dur = (false, s) := by
  cases resource
  · exact absurd rfl h1
  · exact absurd rfl h2
  · exact absurd rfl h3
  · rfl
  · rfl
  · rfl

/-- Models `CrisisGameEngine._can_rescue_at_location` (reads only the resource
allocation out of the game state). -/
def can_rescue_alloc (r : ResourceAllocation) (locn : CrisisLocation) : Bool :=
  if locn = CrisisLocation.FLOOR_3 ∨ locn = CrisisLocation.FLOOR_4 then
    decide ((r.ladder_location = some locn ∧ r.ladder_owner = some EmergencyTeam.FIRE) ∧
      (r.ambulance_1_location = some locn ∨ r.ambulance_2_location = some locn))
  else if locn = CrisisLocation.FLOOR_1 ∨ locn = CrisisLocation.FLOOR_2 ∨
      locn = CrisisLocation.LOBBY then
    decide (r.ambulance_1_location = some locn ∨ r.ambulance_2_location = some locn)
  else if locn = CrisisLocation.EXTERIOR then
    decide ((r.ambulance_1_location = some locn ∨ r.ambulance_2_location = some locn) ∧
      r.evac_route_status = "CLEAR")
  else false

/-- The check `CrisisGameEngine._can_rescue_at_location` applied to a game state. -/
def can_rescue_at_location (s : GameState) (locn : CrisisLocation) : Bool :=
  can_rescue_alloc s.resource_allocation locn

/-- Pointwise update of the team-status map (Python mutates the dict value in
place; the other two teams' records are untouched). -/
def update_team (m : EmergencyTeam → TeamStatus) (t : EmergencyTeam)
    (f : TeamStatus → TeamStatus) : EmergencyTeam → TeamStatus :=
  fun t2 => if t2 = t then f (m t) else m t2

/-- Models `team_statuses[t].victims_saved += k`. -/
def add_victims_saved (s : GameState) (t : EmergencyTeam) (k : Int) : GameState :=
  { s with team_statuses :=
      update_team s.team_statuses t (fun ts => { ts with victims_saved := ts.victims_saved + k }) }

/-- Models `team_statuses[t].people_evacuated += k`. -/
def add_people_evacuated (s : GameState) (t : EmergencyTeam) (k : Int) : GameState :=
  { s with team_statuses :=
      (update_team s.team_statuses t
        (fun ts => { ts with people_evacuated := ts.people_evacuated + k })) }

/-- Models `CrisisGameEngine.record_coordination_event` (timestamp omitted). -/
def record_coordination_event (s : GameState) (etype : String)
    (teams : List EmergencyTeam) (resource : Option CrisisResource)
    (locn : Option CrisisLocation) (outcome : String)
    (lives_saved : Int) (time_saved : Int) : GameState :=
  { s with coordination_events := s.coordination_events ++
      [{ event_type := etype, teams_involved := teams, resource := resource,
         location := locn, outcome := outcome, lives_saved := lives_saved,
         time_saved := time_saved }] }

/-- Victim-count reduction step of `_execute_rescue`
(`victim_locations[location] -= victims_saved`, then delete the entry when it
drops to 0 or below).  The Python subscript assignment presumes the key is
present (a `KeyError` otherwise); the model materialises an absent key with
default 0, which the immediate deletion branch then removes again, so the
absent-key extension is the identity. -/
def reduce_victims (d : List (CrisisLocation × Int)) (locn : CrisisLocation) (m : Int) :
    List (CrisisLocation × Int) :=
  let d1 := dict_set d locn (dict_getD d locn 0 - m)
  if dict_getD d1 locn 0 ≤ 0 then dict_del d1 locn else d1

/-- Credit-award block of `_execute_rescue` (lines 260-283): high floors split
credit between Fire (floor half, guarded on ladder ownership) and Medical
(ceiling half, guarded on an ambulance being present); elsewhere Medical gets
the full amount when an ambulance is present, and Police is additionally
credited `people_evacuated` for a clear exterior evacuation.  Python `//` and
`%` are floor division and modulo, i.e. `Int.fdiv` / `Int.fmod`. -/
def award_rescue_points (s : GameState) (locn : CrisisLocation) (m : Int) :
    List EmergencyTeam × GameState :=
  let r := s.resource_allocation
  if locn = CrisisLocation.FLOOR_3 ∨ locn = CrisisLocation.FLOOR_4 then
    let p1 : List EmergencyTeam × GameState :=
      if r.ladder_owner = some EmergencyTeam.FIRE then
        ([EmergencyTeam.FIRE], add_victims_saved s EmergencyTeam.FIRE (Int.fdiv m 2))
      else ([], s)
    if r.ambulance_1_location = some locn then
      (p1.1 ++ [EmergencyTeam.MEDICAL],
       add_victims_saved p1.2 EmergencyTeam.MEDICAL (Int.fdiv m 2 + Int.fmod m 2))
    else if r.ambulance_2_location = some locn then
      (p1.1 ++ [EmergencyTeam.MEDICAL],
       add_victims_saved p1.2 EmergencyTeam.MEDICAL (Int.fdiv m 2 + Int.fmod m 2))
    else p1
  else
    let p1 : List EmergencyTeam × GameState :=
      if r.ambulance_1_location = some locn ∨ r.ambulance_2_location = some locn then
        ([EmergencyTeam.MEDICAL], add_victims_saved s EmergencyTeam.MEDICAL m)
      else ([], s)
    if locn = CrisisLocation.EXTERIOR ∧ r.evac_route_status = "CLEAR" then
      (p1.1 ++ [EmergencyTeam.POLICE], add_people_evacuated p1.2 EmergencyTeam.POLICE m)
    else p1

/-- Models `CrisisGameEngine._execute_rescue`: reduce the victim count, award
credit, then append one "SUCCESSFUL_RESCUE" coordination event. -/
def execute_rescue (s : GameState) (locn : CrisisLocation) (victims_saved : Int) :
    List EmergencyTeam × GameState :=
  let s1 := { s with crisis_state :=
    ({ s.crisis_state with victim_locations :=
        (reduce_victims s.crisis_state.victim_locations locn victims_saved) }) }
  let p := award_rescue_points s1 locn victims_saved
  (p.1, record_coordination_event p.2 "SUCCESSFUL_RESCUE" p.1 none (some locn)
    "SUCCESS" victims_saved 30)

/-- One entry of the `rescued_locations` list built by
`process_rescue_operations`. -/
structure RescuedRec where
  location : CrisisLocation
  victims_saved : Int
  teams : List EmergencyTeam
deriving DecidableEq

/-- Loop body of `process_rescue_operations`, iterating over the snapshot
copy of the victim dictionary while threading the mutated game state. -/
def rescue_pass : List (CrisisLocation × Int) → GameState → List RescuedRec × GameState
  | [], s => ([], s)
  | (locn, victim_count) :: rest, s =>
    if victim_count > 0 then
      if can_rescue_at_location s locn then
        let m := min victim_count 2
        let r := execute_rescue s locn m
        let rest_r := rescue_pass rest r.2
        (if m > 0 then
            { location := locn, victims_saved := m, teams := r.1 } :: rest_r.1
          else rest_r.1,
         rest_r.2)
      else rescue_pass rest s
    else rescue_pass rest s

/-- Models `CrisisGameEngine.process_rescue_operations`. -/
def process_rescue_operations (s : GameState) : List RescuedRec × GameState :=
  rescue_pass s.crisis_state.victim_locations s

/-- ETA countdown block of `update_crisis_state` for one resource triple.
Python truthiness: the block is skipped when the ETA is `None` or `0`.
Inside the block the ETA becomes `max(0, eta - 10)`, and when that hits `0`
only the owner and location are reset to `None` (the ETA itself keeps the
value `0`). -/
def eta_countdown (owner : Option EmergencyTeam) (locn : Option CrisisLocation)
    (eta : Option Int) : Option EmergencyTeam × Option CrisisLocation × Option Int :=
  match eta with
  | none => (owner, locn, none)
  | some e =>
    if e = 0 then (owner, locn, some e)
    else
      let e2 := max 0 (e - 10)
      if e2 = 0 then (none, none, some e2) else (owner, locn, some e2)

/-- Random draws consumed by one `_trigger_crisis_event` call:
`scenario` is the index of the flash text chosen from the 6-element
`crisis_scenarios` list (only indices 0, 1, 2 have a state effect);
`fire_to_floor3` selects between FLOOR_3 and WEST_WING;
`victim_on_floor2` selects between FLOOR_2 and FLOOR_4. -/
structure RandChoice where
  scenario : Nat
  fire_to_floor3 : Bool
  victim_on_floor2 : Bool
deriving DecidableEq

/-- Models `CrisisGameEngine._trigger_crisis_event`: always appends the
`FIRE_SPREADING` event kind to the log, then applies the effect selected by
the substring checks on the chosen flash text. -/
def trigger_crisis_event (s : GameState) (c : RandChoice) : GameState :=
  let s1 := { s with crisis_state :=
    ({ s.crisis_state with crisis_events :=
        s.crisis_state.crisis_events ++ [CrisisEvent.FIRE_SPREADING] }) }
  match c.scenario with
  | 0 =>
    let newLoc := if c.fire_to_floor3 then CrisisLocation.FLOOR_3 else CrisisLocation.WEST_WING
    if newLoc ∈ s1.crisis_state.fire_locations then s1
    else { s1 with crisis_state :=
      ({ s1.crisis_state with fire_locations := s1.crisis_state.fire_locations ++ [newLoc] }) }
  | 1 =>
    let locn := if c.victim_on_floor2 then CrisisLocation.FLOOR_2 else CrisisLocation.FLOOR_4
    { s1 with crisis_state :=
      ({ s1.crisis_state with victim_locations :=
          (dict_set s1.crisis_state.victim_locations locn
            (dict_getD s1.crisis_state.victim_locations locn 0 + 1)) }) }
  | 2 =>
    { s1 with crisis_state :=
      ({ s1.crisis_state with gas_pressure_level :=
          (min 10 (s1.crisis_state.gas_pressure_level + 2)) }) }
  | _ => s1

/-- Deterioration block of `update_crisis_state` (guarded by
`elapsed_time % 20 == 0` at the call site): gas pressure rises by 1 capped at
10, building stability falls by 1 but stops at 2. -/
def deteriorate (s : GameState) : GameState :=
  let g := s.crisis_state.gas_pressure_level
  let b := s.crisis_state.building_stability
  { s with crisis_state :=
    ({ s.crisis_state with
        gas_pressure_level := (if g < 10 then g + 1 else g)
        building_stability := (if 2 < b then b - 1 else b) }) }

/-- Models `CrisisGameEngine.update_crisis_state`: set elapsed time, run the three
ETA countdowns, fire the scheduled crisis event when
`elapsed_time >= next_crisis_time` (advancing the counter by 15, at most once
per call), and apply the deterioration block when `elapsed_time % 20 == 0`.
Python `%` on a positive modulus agrees with `Int.emod`. -/
def update_crisis_state (eng : EngineState) (s : GameState) (elapsed : Int)
    (c : RandChoice) : EngineState × GameState :=
  let r := s.resource_allocation
  let lad := eta_countdown r.ladder_owner r.ladder_location r.ladder_eta
  let a1 := eta_countdown r.ambulance_1_owner r.ambulance_1_location r.ambulance_1_eta
  let a2 := eta_countdown r.ambulance_2_owner r.ambulance_2_location r.ambulance_2_eta
  let s1 := { s with
    crisis_state := ({ s.crisis_state with time_elapsed := elapsed })
    resource_allocation :=
      ({ r with
          ladder_owner := lad.1, ladder_location := lad.2.1, ladder_eta := lad.2.2
          ambulance_1_owner := a1.1, ambulance_1_location := a1.2.1, ambulance_1_eta := a1.2.2
          ambulance_2_owner := a2.1, ambulance_2_location := a2.2.1, ambulance_2_eta := a2.2.2 }) }
  let fired := eng.next_crisis_time ≤ elapsed
  let eng2 := if fired then { eng with next_crisis_time := eng.next_crisis_time + 15 } else eng
  let s2 := if fired then trigger_crisis_event s1 c else s1
  let s3 := if Int.emod elapsed 20 = 0 then deteriorate s2 else s2
  (eng2, s3)

/-- Models `CrisisGameEngine.calculate_score`, computed exactly over `ℚ` (the Python
float literal `0.1` is the rational `1/10`). -/
def calculate_score (s : GameState) : ℚ :=
  let total_lives_saved : Int := (team_list.map (fun t => (s.team_statuses t).victims_saved)).sum
  let total_fire_contained : Int := (team_list.map (fun t => (s.team_statuses t).fire_contained)).sum
  let total_evacuated : Int := (team_list.map (fun t => (s.team_statuses t).people_evacuated)).sum
  let time_penalty : ℚ := ((max 0 (s.crisis_state.time_elapsed - 180) : Int) : ℚ) * (1 / 10)
  let damage_penalty : ℚ := ((10 - s.crisis_state.building_stability : Int) : ℚ) * 5
  let coordination_bonus : ℚ := (s.coordination_events.length : ℚ) * 10
  let vocab_bonus : ℚ :=
    (((team_list.map (fun t =>
        (s.emergency_vocabulary t).shorthand_developed +
        (s.emergency_vocabulary t).coordination_terms +
        (s.emergency_vocabulary t).urgency_terms)).sum : Int) : ℚ) * 2
  let final_score : ℚ :=
    (total_lives_saved : ℚ) * 100 + (total_fire_contained : ℚ) * 50 +
      (total_evacuated : ℚ) * 25 + coordination_bonus + vocab_bonus -
      time_penalty - damage_penalty
  max 0 final_score

/-- Written from the specification text of the Scorer, for comparison with
`calculate_score`: "100 × total victims-saved + 50 × total fire-contained +
25 × total people-evacuated + 10 × count(coordination events) + 2 × sum(all
vocabulary counters across teams) − 0.1 × max(0, elapsed − 180) − 5 ×
(10 − building-stability), clamped to a minimum of 0". -/
def score_spec (s : GameState) : ℚ :=
  max 0
    (100 * ((team_list.map (fun t => (s.team_statuses t).victims_saved)).sum : ℚ) +
     50 * ((team_list.map (fun t => (s.team_statuses t).fire_contained)).sum : ℚ) +
     25 * ((team_list.map (fun t => (s.team_statuses t).people_evacuated)).sum : ℚ) +
     10 * (s.coordination_events.length : ℚ) +
     2 * ((team_list.map (fun t =>
            (s.emergency_vocabulary t).shorthand_developed +
            (s.emergency_vocabulary t).coordination_terms +
            (s.emergency_vocabulary t).urgency_terms)).sum : ℚ) -
     (1 / 10) * ((max 0 (s.crisis_state.time_elapsed - 180) : Int) : ℚ) -
     5 * (10 - (s.crisis_state.building_stability : ℚ)))


theorem dict_get_mem {d : List (CrisisLocation × Int)} {k : CrisisLocation} {v : Int}
    (h : dict_get d k = some v) : (k, v) ∈ d := by
  induction d with
  | nil => simp [dict_get] at h
  | cons p rest ih =>
    rw [dict_get] at h
    by_cases hp : p.1 = k
    · rw [if_pos hp] at h
      have hpv : p = (k, v) := by
        obtain ⟨a, b⟩ := p
        simp only [Option.some.injEq] at h
        simp_all
      rw [hpv]
      exact List.mem_cons_self _ _
    · rw [if_neg hp] at h
      exact List.mem_cons_of_mem _ (ih h)

theorem award_fields (s : GameState) (locn : CrisisLocation) (m : Int) :
    (award_rescue_points s locn m).2.resource_allocation = s.resource_allocation ∧
    (award_rescue_points s locn m).2.crisis_state = s.crisis_state ∧
    (award_rescue_points s locn m).2.coordination_events = s.coordination_events := by
  simp only [award_rescue_points, add_victims_saved, add_people_evacuated]
  split_ifs <;> simp

theorem execute_rescue_alloc (s : GameState) (locn : CrisisLocation) (m : Int) :
    (execute_rescue s locn m).2.resource_allocation = s.resource_allocation := by
  simp only [execute_rescue, record_coordination_event]
  exact (award_fields _ _ _).1

theorem rescue_pass_alloc (lst : List (CrisisLocation × Int)) (s : GameState) :
    (rescue_pass lst s).2.resource_allocation = s.resource_allocation := by
  induction lst generalizing s with
  | nil => rfl
  | cons p rest ih =>
    obtain ⟨l0, c0⟩ := p
    rw [rescue_pass]
    split_ifs with h1 h2
    · dsimp only
      rw [ih]
      exact execute_rescue_alloc s l0 (min c0 2)
    · exact ih s
    · exact ih s

theorem rescue_pass_mem (lst : List (CrisisLocation × Int)) (s : GameState)
    (locn : CrisisLocation) :
    (locn ∈ (rescue_pass lst s).1.map RescuedRec.location) ↔
      (∃ c : Int, (locn, c) ∈ lst ∧ 0 < c ∧
        can_rescue_alloc s.resource_allocation locn = true) := by
  induction lst generalizing s with
  | nil => simp [rescue_pass]
  | cons p rest ih =>
    obtain ⟨l0, c0⟩ := p
    by_cases h1 : c0 > 0
    · by_cases h2 : can_rescue_at_location s l0 = true
      · have hm : min c0 2 > 0 := lt_min h1 (by norm_num)
        rw [rescue_pass, if_pos h1, if_pos h2]
        dsimp only
        rw [if_pos hm]
        simp only [List.map_cons, List.mem_cons]
        rw [ih ((execute_rescue s l0 (min c0 2)).2), execute_rescue_alloc]
        constructor
        · intro h
          rcases h with h | ⟨c, hc1, hc2, hc3⟩
          · exact ⟨c0, Or.inl (by rw [h]), h1, by rw [h]; exact h2⟩
          · exact ⟨c, Or.inr hc1, hc2, hc3⟩
        · rintro ⟨c, hc1 | hc1, hc2, hc3⟩
          · left
            rw [Prod.mk.injEq] at hc1
            exact hc1.1
          · exact Or.inr ⟨c, hc1, hc2, hc3⟩
      · rw [rescue_pass, if_pos h1, if_neg h2, ih]
        constructor
        · rintro ⟨c, hc1, hc2, hc3⟩
          exact ⟨c, List.mem_cons_of_mem _ hc1, hc2, hc3⟩
        · rintro ⟨c, hc1, hc2, hc3⟩
          rcases List.mem_cons.1 hc1 with hc1 | hc1
          · exfalso
            rw [Prod.mk.injEq] at hc1
            rw [hc1.1] at hc3
            exact h2 hc3
          · exact ⟨c, hc1, hc2, hc3⟩
    · rw [rescue_pass, if_neg h1, ih]
      constructor
      · rintro ⟨c, hc1, hc2, hc3⟩
        exact ⟨c, List.mem_cons_of_mem _ hc1, hc2, hc3⟩
      · rintro ⟨c, hc1, hc2, hc3⟩
        rcases List.mem_cons.1 hc1 with hc1 | hc1
        · exfalso
          rw [Prod.mk.injEq] at hc1
          exact h1 (hc1.2 ▸ hc2)
        · exact ⟨c, hc1, hc2, hc3⟩

/-- Written from the specification text of the Rescue Evaluator precondition,
for comparison with `can_rescue_at_location`: high floors need the ladder
owned by Fire and located here plus an ambulance here; low floors and the
lobby need an ambulance here; the exterior needs an ambulance here and a
clear evacuation route; the wings are never rescuable. -/
def can_rescue_spec (s : GameState) (locn : CrisisLocation) : Bool :=
  let r := s.resource_allocation
  let amb_here : Bool :=
    decide (r.ambulance_1_location = some locn ∨ r.ambulance_2_location = some locn)
  match locn with
  | CrisisLocation.FLOOR_3 =>
      (decide (r.ladder_owner = some EmergencyTeam.FIRE ∧ r.ladder_location = some locn)) && amb_here
  | CrisisLocation.FLOOR_4 =>
      (decide (r.ladder_owner = some EmergencyTeam.FIRE ∧ r.ladder_location = some locn)) && amb_here
  | CrisisLocation.FLOOR_1 => amb_here
  | CrisisLocation.FLOOR_2 => amb_here
  | CrisisLocation.LOBBY => amb_here
  | CrisisLocation.EXTERIOR => amb_here && decide (r.evac_route_status = "CLEAR")
  | CrisisLocation.EAST_WING => false
  | CrisisLocation.WEST_WING => false

/-- C5: the Rescue Evaluator rescues at a victim-holding location exactly
when the location-class precondition of the specification holds, and the
code's precondition check coincides with that location-class table. -/
theorem c5_rescue_precondition (s : GameState) (locn : CrisisLocation) (n : Int)
    (hget : dict_get s.crisis_state.victim_locations locn = some n) (hn : 0 < n) :
    ((locn ∈ (process_rescue_operations s).1.map RescuedRec.location) ↔
      can_rescue_spec s locn = true) ∧
    can_rescue_at_location s locn = can_rescue_spec s locn := by
  have hcode : can_rescue_at_location s locn = can_rescue_spec s locn := by
    cases locn <;>
      simp [can_rescue_at_location, can_rescue_alloc, can_rescue_spec,
        Bool.and_comm, and_comm, Bool.decide_and]
  refine ⟨?_, hcode⟩
  rw [process_rescue_operations, rescue_pass_mem, ← hcode]
  constructor
  · rintro ⟨c, _, _, hc3⟩
    exact hc3
  · intro h
    exact ⟨n, dict_get_mem hget, hn, h⟩

theorem dict_get_set_self (d : List (CrisisLocation × Int)) (k : CrisisLocation) (v : Int) :
    dict_get (dict_set d k v) k = some v := by
  induction d with
  | nil => simp [dict_set, dict_get]
  | cons p rest ih =>
    rw [dict_set]
    by_cases hp : p.1 = k
    · rw [if_pos hp, dict_get, if_pos rfl]
    · rw [if_neg hp, dict_get, if_neg hp]
      exact ih

theorem dict_set_keys (d : List (CrisisLocation × Int)) (k : CrisisLocation) (v : Int) :
    (dict_set d k v).map Prod.fst = d.map Prod.fst ∨
    (dict_set d k v).map Prod.fst = d.map Prod.fst ++ [k] := by
  induction d with
  | nil => right; simp [dict_set]
  | cons p rest ih =>
    rw [dict_set]
    by_cases hp : p.1 = k
    · left
      rw [if_pos hp]
      simp [hp]
    · rw [if_neg hp]
      rcases ih with ih | ih <;> simp [ih]

theorem dict_set_nodup (d : List (CrisisLocation × Int)) (k : CrisisLocation) (v : Int)
    (h : (d.map Prod.fst).Nodup) : ((dict_set d k v).map Prod.fst).Nodup := by
  induction d with
  | nil => simp [dict_set]
  | cons p rest ih =>
    rw [dict_set]
    simp only [List.map_cons, List.nodup_cons] at h
    by_cases hp : p.1 = k
    · rw [if_pos hp]
      simp only [List.map_cons, List.nodup_cons]
      exact ⟨hp ▸ h.1, h.2⟩
    · rw [if_neg hp]
      simp only [List.map_cons, List.nodup_cons]
      refine ⟨?_, ih h.2⟩
      intro hmem
      rcases dict_set_keys rest k v with hk | hk
      · rw [hk] at hmem
        exact h.1 hmem
      · rw [hk] at hmem
        rcases List.mem_append.1 hmem with hmem | hmem
        · exact h.1 hmem
        · simp at hmem
          exact hp hmem

theorem dict_get_del_self (d : List (CrisisLocation × Int)) (k : CrisisLocation)
    (h : (d.map Prod.fst).Nodup) : dict_get (dict_del d k) k = none := by
  induction d with
  | nil => rfl
  | cons p rest ih =>
    rw [dict_del]
    simp only [List.map_cons, List.nodup_cons] at h
    by_cases hp : p.1 = k
    · rw [if_pos hp]
      rcases hg : dict_get rest k with _ | v
      · rfl
      · exfalso
        have := dict_get_mem hg
        apply h.1
        rw [hp]
        exact List.mem_map.2 ⟨(k, v), this, rfl⟩
    · rw [if_neg hp, dict_get, if_neg hp]
      exact ih h.2

theorem dict_get_reduce_victims (d : List (CrisisLocation × Int)) (k : CrisisLocation)
    (n m : Int) (hnd : (d.map Prod.fst).Nodup) (hget : dict_get d k = some n) :
    dict_get (reduce_victims d k m) k =
      (if n - m ≤ 0 then none else some (n - m)) := by
  rw [reduce_victims]
  have hD : dict_getD d k 0 = n := by rw [dict_getD, hget]; rfl
  rw [hD]
  have hD1 : dict_getD (dict_set d k (n - m)) k 0 = n - m := by
    rw [dict_getD, dict_get_set_self]; rfl
  rw [hD1]
  by_cases hle : n - m ≤ 0
  · rw [if_pos hle, if_pos hle]
    exact dict_get_del_self _ _ (dict_set_nodup d k (n - m) hnd)
  · rw [if_neg hle, if_neg hle]
    exact dict_get_set_self d k (n - m)

theorem award_high (s : GameState) (locn : CrisisLocation) (m : Int)
    (h3 : locn = CrisisLocation.FLOOR_3 ∨ locn = CrisisLocation.FLOOR_4)
    (hL : s.resource_allocation.ladder_owner = some EmergencyTeam.FIRE)
    (hA : s.resource_allocation.ambulance_1_location = some locn ∨
          s.resource_allocation.ambulance_2_location = some locn) :
    ((award_rescue_points s locn m).2.team_statuses EmergencyTeam.FIRE).victims_saved =
      (s.team_statuses EmergencyTeam.FIRE).victims_saved + Int.fdiv m 2 ∧
    ((award_rescue_points s locn m).2.team_statuses EmergencyTeam.MEDICAL).victims_saved =
      (s.team_statuses EmergencyTeam.MEDICAL).victims_saved +
        (Int.fdiv m 2 + Int.fmod m 2) := by
  rw [award_rescue_points, if_pos h3]
  dsimp only
  rw [if_pos hL]
  by_cases hA1 : s.resource_allocation.ambulance_1_location = some locn
  · rw [if_pos hA1]
    simp [add_victims_saved, update_team]
  · rcases hA with hA | hA
    · exact absurd hA hA1
    · rw [if_neg hA1, if_pos hA]
      simp [add_victims_saved, update_team]

theorem award_low (s : GameState) (locn : CrisisLocation) (m : Int)
    (h3 : ¬(locn = CrisisLocation.FLOOR_3 ∨ locn = CrisisLocation.FLOOR_4))
    (hA : s.resource_allocation.ambulance_1_location = some locn ∨
          s.resource_allocation.ambulance_2_location = some locn)
    (hExt : ¬(locn = CrisisLocation.EXTERIOR ∧ s.resource_allocation.evac_route_status = "CLEAR")) :
    ((award_rescue_points s locn m).2.team_statuses EmergencyTeam.MEDICAL).victims_saved =
      (s.team_statuses EmergencyTeam.MEDICAL).victims_saved + m := by
  rw [award_rescue_points, if_neg h3]
  dsimp only
  rw [if_pos hA, if_neg hExt]
  simp [add_victims_saved, update_team]

theorem award_ext (s : GameState) (m : Int)
    (hA : s.resource_allocation.ambulance_1_location = some CrisisLocation.EXTERIOR ∨
          s.resource_allocation.ambulance_2_location = some CrisisLocation.EXTERIOR)
    (hclear : s.resource_allocation.evac_route_status = "CLEAR") :
    ((award_rescue_points s CrisisLocation.EXTERIOR m).2.team_statuses
        EmergencyTeam.MEDICAL).victims_saved =
      (s.team_statuses EmergencyTeam.MEDICAL).victims_saved + m ∧
    ((award_rescue_points s CrisisLocation.EXTERIOR m).2.team_statuses
        EmergencyTeam.POLICE).people_evacuated =
      (s.team_statuses EmergencyTeam.POLICE).people_evacuated + m := by
  rw [award_rescue_points, if_neg (by simp)]
  dsimp only
  rw [if_pos hA, if_pos ⟨rfl, hclear⟩]
  simp [add_victims_saved, add_people_evacuated, update_team]

/-- C6: one firing rescue at a location holding `n > 0` victims removes
exactly `min(n,2)` of them (deleting the entry when it empties), credits the
teams according to the location class, and appends exactly one
"SUCCESSFUL_RESCUE" coordination event carrying `lives_saved = min(n,2)` and
`time_saved = 30`. -/
theorem c6_rescue_effects (s : GameState) (locn : CrisisLocation) (n : Int)
    (hnd : (s.crisis_state.victim_locations.map Prod.fst).Nodup)
    (hget : dict_get s.crisis_state.victim_locations locn = some n)
    (hn : 0 < n)
    (hcan : can_rescue_at_location s locn = true) :
    (dict_get (execute_rescue s locn (min n 2)).2.crisis_state.victim_locations locn =
      (if n ≤ 2 then none else some (n - 2))) ∧
    ((locn = CrisisLocation.FLOOR_3 ∨ locn = CrisisLocation.FLOOR_4) →
      ((execute_rescue s locn (min n 2)).2.team_statuses EmergencyTeam.FIRE).victims_saved =
        (s.team_statuses EmergencyTeam.FIRE).victims_saved + Int.fdiv (min n 2) 2 ∧
      ((execute_rescue s locn (min n 2)).2.team_statuses EmergencyTeam.MEDICAL).victims_saved =
        (s.team_statuses EmergencyTeam.MEDICAL).victims_saved +
          (Int.fdiv (min n 2) 2 + Int.fmod (min n 2) 2)) ∧
    ((locn = CrisisLocation.FLOOR_1 ∨ locn = CrisisLocation.FLOOR_2 ∨
        locn = CrisisLocation.LOBBY) →
      ((execute_rescue s locn (min n 2)).2.team_statuses EmergencyTeam.MEDICAL).victims_saved =
        (s.team_statuses EmergencyTeam.MEDICAL).victims_saved + min n 2) ∧
    (locn = CrisisLocation.EXTERIOR →
      ((execute_rescue s locn (min n 2)).2.team_statuses EmergencyTeam.MEDICAL).victims_saved =
        (s.team_statuses EmergencyTeam.MEDICAL).victims_saved + min n 2 ∧
      ((execute_rescue s locn (min n 2)).2.team_statuses EmergencyTeam.POLICE).people_evacuated =
        (s.team_statuses EmergencyTeam.POLICE).people_evacuated + min n 2) ∧
    ((execute_rescue s locn (min n 2)).2.coordination_events =
      s.coordination_events ++
        [{ event_type := "SUCCESSFUL_RESCUE"
           teams_involved := (execute_rescue s locn (min n 2)).1
           resource := none, location := some locn, outcome := "SUCCESS"
           lives_saved := min n 2, time_saved := 30 }]) := by
  have hvic : (execute_rescue s locn (min n 2)).2.crisis_state =
      { s.crisis_state with victim_locations :=
          (reduce_victims s.crisis_state.victim_locations locn (min n 2)) } := by
    show (record_coordination_event _ _ _ _ _ _ _ _).crisis_state = _
    rw [record_coordination_event]
    exact (award_fields _ _ _).2.1
  have hts : (execute_rescue s locn (min n 2)).2.team_statuses =
      (award_rescue_points
        ({ s with crisis_state :=
          ({ s.crisis_state with victim_locations :=
              (reduce_victims s.crisis_state.victim_locations locn (min n 2)) }) })
        locn (min n 2)).2.team_statuses := rfl
  refine ⟨?_, ?_, ?_, ?_, ?_⟩
  · rw [hvic]
    show dict_get (reduce_victims s.crisis_state.victim_locations locn (min n 2)) locn = _
    rw [dict_get_reduce_victims _ _ n _ hnd hget]
    by_cases h2 : n ≤ 2
    · rw [if_pos h2, if_pos (by omega : n - min n 2 ≤ 0)]
    · rw [if_neg h2, if_neg (by omega : ¬ n - min n 2 ≤ 0)]
      congr 1
      omega
  · intro h3
    rw [can_rescue_at_location, can_rescue_alloc, if_pos h3, decide_eq_true_eq] at hcan
    obtain ⟨⟨hLl, hLo⟩, hAmb⟩ := hcan
    rw [hts]
    exact award_high _ _ _ h3 hLo hAmb
  · intro h3
    have hne : ¬(locn = CrisisLocation.FLOOR_3 ∨ locn = CrisisLocation.FLOOR_4) := by
      rcases h3 with rfl | rfl | rfl <;> simp
    rw [can_rescue_at_location, can_rescue_alloc, if_neg hne, if_pos h3,
      decide_eq_true_eq] at hcan
    rw [hts]
    refine award_low _ _ _ hne hcan ?_
    rcases h3 with rfl | rfl | rfl <;> simp
  · intro h3
    subst h3
    rw [can_rescue_at_location, can_rescue_alloc, if_neg (by simp), if_neg (by simp),
      if_pos rfl, decide_eq_true_eq] at hcan
    rw [hts]
    exact award_ext _ _ hcan.1 hcan.2
  · show (record_coordination_event _ _ _ _ _ _ _ _).coordination_events = _
    rw [record_coordination_event]
    dsimp only
    rw [(award_fields _ _ _).2.2]
    exact rfl

/-- C7: the Scorer computes exactly the specification's clamped weighted sum,
and its output is never negative. -/
theorem c7_score_formula (s : GameState) :
    calculate_score s = score_spec s ∧ 0 ≤ calculate_score s := by
  have h : calculate_score s = score_spec s := by
    rw [calculate_score, score_spec]
    congr 1
    push_cast
    ring
  refine ⟨h, ?_⟩
  rw [calculate_score]
  exact le_max_left _ _

/-- C8 (amended): the crisis-event schedule is a genuine counter — it fires
exactly when `elapsed` has reached `next_crisis_time`, advancing that counter
by 15 and appending exactly one event per call — while the
gas-pressure/stability deterioration is re-derived from `elapsed % 20 == 0`
on every call rather than kept as an independent counter. -/
theorem c8_schedule_behaviour (eng : EngineState) (s : GameState) (elapsed : Int)
    (c : RandChoice) :
    ((update_crisis_state eng s elapsed c).1.next_crisis_time =
      (if eng.next_crisis_time ≤ elapsed then eng.next_crisis_time + 15
       else eng.next_crisis_time)) ∧
    (¬ eng.next_crisis_time ≤ elapsed →
      (update_crisis_state eng s elapsed c).2.crisis_state.crisis_events =
        s.crisis_state.crisis_events) ∧
    (eng.next_crisis_time ≤ elapsed →
      (update_crisis_state eng s elapsed c).2.crisis_state.crisis_events =
        s.crisis_state.crisis_events ++ [CrisisEvent.FIRE_SPREADING]) ∧
    (¬ Int.emod elapsed 20 = 0 →
      (update_crisis_state eng s elapsed c).2.crisis_state.building_stability =
        s.crisis_state.building_stability) ∧
    (Int.emod elapsed 20 = 0 →
      (update_crisis_state eng s elapsed c).2.crisis_state.building_stability =
        (if 2 < s.crisis_state.building_stability then s.crisis_state.building_stability - 1
         else s.crisis_state.building_stability)) := by
  have hvic_events : ∀ s2 : GameState, (trigger_crisis_event s2 c).crisis_state.crisis_events =
      s2.crisis_state.crisis_events ++ [CrisisEvent.FIRE_SPREADING] := by
    intro s2
    rw [trigger_crisis_event]
    rcases c with ⟨sc, f3, v2⟩
    match sc with
    | 0 =>
      dsimp only
      split_ifs <;> rfl
    | 1 => rfl
    | 2 => rfl
    | (k + 3) => rfl
  have hvic_stab : ∀ s2 : GameState, (trigger_crisis_event s2 c).crisis_state.building_stability =
      s2.crisis_state.building_stability := by
    intro s2
    rw [trigger_crisis_event]
    rcases c with ⟨sc, f3, v2⟩
    match sc with
    | 0 =>
      dsimp only
      split_ifs <;> rfl
    | 1 => rfl
    | 2 => rfl
    | (k + 3) => rfl
  have hdet_events : ∀ s2 : GameState, (deteriorate s2).crisis_state.crisis_events =
      s2.crisis_state.crisis_events := by
    intro s2
    rfl
  have hdet_stab : ∀ s2 : GameState, (deteriorate s2).crisis_state.building_stability =
      (if 2 < s2.crisis_state.building_stability then s2.crisis_state.building_stability - 1
       else s2.crisis_state.building_stability) := by
    intro s2
    rfl
  rw [update_crisis_state]
  dsimp only
  refine ⟨?_, ?_, ?_, ?_, ?_⟩
  · by_cases hf : eng.next_crisis_time ≤ elapsed
    · rw [if_pos hf, if_pos hf]
    · rw [if_neg hf, if_neg hf]
  · intro hf
    rw [if_neg hf]
    by_cases hd : Int.emod elapsed 20 = 0
    · rw [if_pos hd, hdet_events]
    · rw [if_neg hd]
  · intro hf
    rw [if_pos hf]
    by_cases hd : Int.emod elapsed 20 = 0
    · rw [if_pos hd, hdet_events, hvic_events]
    · rw [if_neg hd, hvic_events]
  · intro hd
    rw [if_neg hd]
    by_cases hf : eng.next_crisis_time ≤ elapsed
    · rw [if_pos hf, hvic_stab]
    · rw [if_neg hf]
  · intro hd
    rw [if_pos hd]
    by_cases hf : eng.next_crisis_time ≤ elapsed
    · rw [if_pos hf, hdet_stab, hvic_stab]
    · rw [if_neg hf, hdet_stab]

/-- The attribute names defined on `CrisisGameEngine` (its `__init__` fields
and its methods, as written in game_engine.py).  Python resolves
`self.game_engine.<name>` against this table and raises `AttributeError` when
the name is absent. -/
def engine_attrs : List String :=
  ["crisis_scenarios", "crisis_timer", "next_crisis_time",
   "initia" ++ "lize_game", "create_agent_configs", "get_team_perspective",
   "process_rescue_operations", "_can_rescue_at_location", "_execute_rescue",
   "process_resource_request", "update_crisis_state", "_trigger_crisis_event",
   "calculate_score", "record_coordination_event", "get_game_result",
   "_calculate_resource_utilization", "export_game_data"]

/-- Observable outcome of one `EmergencyResponseManager.start_game` run of
the main loop, restricted to the observation window of `fuel` iterations:
the end-game reasons passed to `_end_game` in order (each `_end_game` call
runs `get_game_result`, hence the Scorer, once), how many loop iterations
were entered, and whether the window closed while the loop was still
running. -/
structure LoopResult where
  end_reasons : List String
  scorer_calls : Nat
  ticks_started : Nat
  still_running : Bool
deriving DecidableEq

/-- The control flow of `EmergencyResponseManager.start_game` (lines 58-99):
a `try` block wrapping the whole `while` loop, an `except` clause that logs
any fault, and a `finally` clause that always calls `_end_game()` with its
default reason.  Iteration `n` computes `elapsed_at n`; if it reaches the
duration, `_end_game("Time limit reached")` runs and the loop breaks (the
`finally` then calls `_end_game` a second time).  Otherwise the loop
evaluates `game_engine.is_problem_solved`: when that attribute is absent the
lookup itself raises, the `except` logs, and only the `finally` `_end_game`
runs.  When present and true, `_end_game("Problem solved successfully!")`
runs and the loop breaks (plus the `finally` call).  A fault anywhere else in
the tick body (modelled by `tick_faults`) likewise leaves the loop for the
`except`/`finally`.  Otherwise the loop continues with the next iteration. -/
def start_game_loop (duration : Int) (elapsed_at : Nat → Int) (has_solved_attr : Bool)
    (solved_at : Nat → Bool) (tick_faults : Nat → Bool) : Nat → Nat → LoopResult
  | n, 0 =>
    { end_reasons := [], scorer_calls := 0, ticks_started := n, still_running := true }
  | n, fuel + 1 =>
    if duration ≤ elapsed_at n then
      { end_reasons := ["Time limit reached", "Game ended"], scorer_calls := 2,
        ticks_started := n + 1, still_running := false }
    else if has_solved_attr = false then
      { end_reasons := ["Game ended"], scorer_calls := 1,
        ticks_started := n + 1, still_running := false }
    else if solved_at n then
      { end_reasons := ["Problem solved successfully!", "Game ended"], scorer_calls := 2,
        ticks_started := n + 1, still_running := false }
    else if tick_faults n then
      { end_reasons := ["Game ended"], scorer_calls := 1,
        ticks_started := n + 1, still_running := false }
    else
      start_game_loop duration elapsed_at has_solved_attr solved_at tick_faults (n + 1) fuel

/-- C1: the problem-solved transition can never happen as specified, because
`CrisisGameEngine` defines no `is_problem_solved` attribute; the very first
tick of a run (here with the victim mapping empty at every tick, the game
duration 300 and wall-clock elapsed 5 seconds per tick) raises
`AttributeError`, which the loop's `except` swallows, so the game ends via
the `finally` clause with the default reason "Game ended" — not
"Problem solved successfully!" — after a single tick. -/
theorem c1_problem_solved_check_is_missing :
    engine_attrs.contains "is_problem_solved" = false ∧
    start_game_loop 300 (fun n => 5 * n) (engine_attrs.contains "is_problem_solved")
        (fun _ => true) (fun _ => false) 0 60 =
      { end_reasons := ["Game ended"], scorer_calls := 1,
        ticks_started := 1, still_running := false } := by
  constructor
  · decide
  · decide

/-- C2 (counterexample to the claim as stated): with the code's own engine
attribute table, the fault raised inside the first tick (the failed
`is_problem_solved` lookup) is caught and logged, but the loop does NOT
proceed to the next tick — only one tick is ever started even though 59 more
observation iterations and the whole game duration remained. -/
theorem c2_fault_stops_loop_counterexample :
    (start_game_loop 300 (fun n => 5 * n) (engine_attrs.contains "is_problem_solved")
        (fun _ => false) (fun _ => false) 0 60).ticks_started = 1 ∧
    (start_game_loop 300 (fun n => 5 * n) (engine_attrs.contains "is_problem_solved")
        (fun _ => false) (fun _ => false) 0 60).still_running = false := by
  constructor
  · decide
  · decide

/-- C2 (amended): a fault raised during a tick's processing is caught (the
run ends gracefully through the `finally` clause, with the Scorer invoked
exactly once and the default end reason), but it terminates the loop instead
of letting it proceed: ticks stop at the faulting iteration. -/
theorem c2_tick_fault_ends_game (duration : Int) (elapsed_at : Nat → Int)
    (has_attr : Bool) (solved_at tick_faults : Nat → Bool) (n k fuel : Nat)
    (hfuel : k < n + fuel)
    (hrun : ∀ j, n ≤ j → j ≤ k → elapsed_at j < duration)
    (hnosolve : ∀ j, n ≤ j → j ≤ k → solved_at j = false)
    (hnofault : ∀ j, n ≤ j → j < k → tick_faults j = false)
    (hfault : (has_attr = false ∧ k = n) ∨ (has_attr = true ∧ tick_faults k = true))
    (hstart : n ≤ k) :
    start_game_loop duration elapsed_at has_attr solved_at tick_faults n (n + fuel - n) =
      { end_reasons := ["Game ended"], scorer_calls := 1,
        ticks_started := k + 1, still_running := false } := by
  induction fuel generalizing n with
  | zero => omega
  | succ m ih =>
    have hfuel2 : n + (m + 1) - n = m + 1 := by omega
    rw [hfuel2, start_game_loop]
    rw [if_neg (by have := hrun n le_rfl hstart; omega)]
    by_cases hattr : has_attr = false
    · rw [if_pos hattr]
      rcases hfault with ⟨_, hk⟩ | ⟨h1, _⟩
      · rw [hk]
      · simp [h1] at hattr
    · rw [if_neg hattr]
      rw [hnosolve n le_rfl hstart, if_neg (by simp)]
      rcases Nat.eq_or_lt_of_le hstart with heq | hlt
      · subst heq
        rcases hfault with ⟨h0, _⟩ | ⟨_, hfk⟩
        · exact absurd h0 hattr
        · rw [hfk, if_pos rfl]
      · rw [hnofault n le_rfl hlt, if_neg (by simp)]
        rcases hfault with ⟨h0, _⟩ | ⟨h1, hfk⟩
        · exact absurd h0 hattr
        · have := ih (n + 1) (by omega) (fun j hj1 hj2 => hrun j (by omega) hj2)
            (fun j hj1 hj2 => hnosolve j (by omega) hj2)
            (fun j hj1 hj2 => hnofault j (by omega) hj2)
            (Or.inr ⟨h1, hfk⟩) (by omega)
          rw [show n + 1 + m - (n + 1) = m by omega] at this
          exact this

/-- One mutation of the shared engine/game state, as invoked from
`agent_manager` during a run: a resource request (all call sites use the
default duration 5; arbitrary durations are allowed here, which only widens
the set of states), a crisis-state update, a rescue-evaluation pass, or a
coordination-event record. -/
inductive GameStep : EngineState × GameState → EngineState × GameState → Prop
  | request (eng : EngineState) (s : GameState) (team : EmergencyTeam)
      (res : CrisisResource) (locn : CrisisLocation) (dur : Int) :
      GameStep (eng, s) (eng, (process_resource_request s team res locn dur).2)
  | update (eng : EngineState) (s : GameState) (elapsed : Int) (c : RandChoice) :
      GameStep (eng, s) (update_crisis_state eng s elapsed c)
  | rescue (eng : EngineState) (s : GameState) :
      GameStep (eng, s) (eng, (process_rescue_operations s).2)
  | record (eng : EngineState) (s : GameState) (etype : String)
      (teams : List EmergencyTeam) (res : Option CrisisResource)
      (locn : Option CrisisLocation) (outcome : String) (lives t : Int) :
      GameStep (eng, s) (eng, record_coordination_event s etype teams res locn outcome lives t)

/-- States reachable from a fresh game by the engine operations. -/
inductive GameReachable : EngineState × GameState → Prop
  | init : GameReachable (eng_init, init_game)
  | step {p q : EngineState × GameState} :
      GameReachable p → GameStep p q → GameReachable q

/-- The all-or-nothing ownership triple of one resource. -/
def triple_ok (owner : Option EmergencyTeam) (locn : Option CrisisLocation)
    (eta : Option Int) : Prop :=
  (owner ≠ none) ↔ (locn ≠ none ∧ eta ≠ none)

/-- The claimed ownership invariant over all three tracked resources. -/
def alloc_ownership_inv (r : ResourceAllocation) : Prop :=
  triple_ok r.ladder_owner r.ladder_location r.ladder_eta ∧
  triple_ok r.ambulance_1_owner r.ambulance_1_location r.ambulance_1_eta ∧
  triple_ok r.ambulance_2_owner r.ambulance_2_location r.ambulance_2_eta

theorem eta_countdown_triple (o : Option EmergencyTeam) (l : Option CrisisLocation)
    (e : Option Int) (h : triple_ok o l e) :
    triple_ok (eta_countdown o l e).1 (eta_countdown o l e).2.1 (eta_countdown o l e).2.2 := by
  rcases e with _ | ev
  · exact h
  · rw [eta_countdown]
    dsimp only
    by_cases h0 : ev = 0
    · rw [if_pos h0]
      exact h
    · rw [if_neg h0]
      by_cases h2 : max 0 (ev - 10) = 0
      · rw [if_pos h2]
        simp [triple_ok]
      · rw [if_neg h2]
        simp only [triple_ok, ne_eq, reduceCtorEq, not_false_iff, and_true] at h ⊢
        exact h

theorem trigger_alloc (s : GameState) (c : RandChoice) :
    (trigger_crisis_event s c).resource_allocation = s.resource_allocation := by
  rw [trigger_crisis_event]
  match c with
  | ⟨0, f3, v2⟩ =>
    dsimp only
    split_ifs <;> rfl
  | ⟨1, f3, v2⟩ => rfl
  | ⟨2, f3, v2⟩ => rfl
  | ⟨k + 3, f3, v2⟩ => rfl

theorem update_alloc_eq (eng : EngineState) (s : GameState) (elapsed : Int)
    (c : RandChoice) :
    (update_crisis_state eng s elapsed c).2.resource_allocation =
      { s.resource_allocation with
          ladder_owner := (eta_countdown s.resource_allocation.ladder_owner
            s.resource_allocation.ladder_location s.resource_allocation.ladder_eta).1
          ladder_location := (eta_countdown s.resource_allocation.ladder_owner
            s.resource_allocation.ladder_location s.resource_allocation.ladder_eta).2.1
          ladder_eta := (eta_countdown s.resource_allocation.ladder_owner
            s.resource_allocation.ladder_location s.resource_allocation.ladder_eta).2.2
          ambulance_1_owner := (eta_countdown s.resource_allocation.ambulance_1_owner
            s.resource_allocation.ambulance_1_location s.resource_allocation.ambulance_1_eta).1
          ambulance_1_location := (eta_countdown s.resource_allocation.ambulance_1_owner
            s.resource_allocation.ambulance_1_location s.resource_allocation.ambulance_1_eta).2.1
          ambulance_1_eta := (eta_countdown s.resource_allocation.ambulance_1_owner
            s.resource_allocation.ambulance_1_location s.resource_allocation.ambulance_1_eta).2.2
          ambulance_2_owner := (eta_countdown s.resource_allocation.ambulance_2_owner
            s.resource_allocation.ambulance_2_location s.resource_allocation.ambulance_2_eta).1
          ambulance_2_location := (eta_countdown s.resource_allocation.ambulance_2_owner
            s.resource_allocation.ambulance_2_location s.resource_allocation.ambulance_2_eta).2.1
          ambulance_2_eta := (eta_countdown s.resource_allocation.ambulance_2_owner
            s.resource_allocation.ambulance_2_location s.resource_allocation.ambulance_2_eta).2.2 } := by
  rw [update_crisis_state]
  dsimp only
  by_cases hf : eng.next_crisis_time ≤ elapsed
  · rw [if_pos hf]
    by_cases hd : Int.emod elapsed 20 = 0
    · rw [if_pos hd]
      show (deteriorate _).resource_allocation = _
      rw [show ∀ s2 : GameState, (deteriorate s2).resource_allocation = s2.resource_allocation
        from fun _ => rfl]
      exact trigger_alloc _ _
    · rw [if_neg hd]
      exact trigger_alloc _ _
  · rw [if_neg hf]
    by_cases hd : Int.emod elapsed 20 = 0
    · rw [if_pos hd]
      rfl
    · rw [if_neg hd]

theorem request_alloc_inv (s : GameState) (team : EmergencyTeam)
    (res : CrisisResource) (locn : CrisisLocation) (dur : Int)
    (h : alloc_ownership_inv s.resource_allocation) :
    alloc_ownership_inv (process_resource_request s team res locn dur).2.resource_allocation := by
  obtain ⟨h1, h2, h3⟩ := h
  cases res
  · rcases ho : s.resource_allocation.ladder_owner with _ | t
    · simp only [process_resource_request, ho]
      exact ⟨by simp [triple_ok], h2, h3⟩
    · simp only [process_resource_request, ho]
      exact ⟨h1, h2, h3⟩
  · rcases ho : s.resource_allocation.ambulance_1_owner with _ | t
    · simp only [process_resource_request, ho]
      exact ⟨h1, by simp [triple_ok], h3⟩
    · simp only [process_resource_request, ho]
      exact ⟨h1, h2, h3⟩
  · rcases ho : s.resource_allocation.ambulance_2_owner with _ | t
    · simp only [process_resource_request, ho]
      exact ⟨h1, h2, by simp [triple_ok]⟩
    · simp only [process_resource_request, ho]
      exact ⟨h1, h2, h3⟩
  · exact ⟨h1, h2, h3⟩
  · exact ⟨h1, h2, h3⟩
  · exact ⟨h1, h2, h3⟩

theorem update_alloc_inv (eng : EngineState) (s : GameState) (elapsed : Int)
    (c : RandChoice) (h : alloc_ownership_inv s.resource_allocation) :
    alloc_ownership_inv (update_crisis_state eng s elapsed c).2.resource_allocation := by
  rw [update_alloc_eq]
  obtain ⟨h1, h2, h3⟩ := h
  exact ⟨eta_countdown_triple _ _ _ h1, eta_countdown_triple _ _ _ h2,
    eta_countdown_triple _ _ _ h3⟩

theorem rescue_ops_alloc (s : GameState) :
    (process_rescue_operations s).2.resource_allocation = s.resource_allocation := by
  rw [process_rescue_operations]
  exact rescue_pass_alloc _ _

/-- C3 (amended): in every reachable state each resource's owner is non-null
exactly when its location and remaining-time are both non-null; and after a
crisis tick in which a countdown reaches 0, the owner and location are
cleared to null while the remaining-time field reads the non-null value 0. -/
theorem c3_ownership_triple :
    (∀ p : EngineState × GameState, GameReachable p →
      alloc_ownership_inv p.2.resource_allocation) ∧
    (∀ (eng : EngineState) (s : GameState) (elapsed : Int) (c : RandChoice) (e : Int),
      s.resource_allocation.ladder_eta = some e → e ≠ 0 → e ≤ 10 →
        (update_crisis_state eng s elapsed c).2.resource_allocation.ladder_owner = none ∧
        (update_crisis_state eng s elapsed c).2.resource_allocation.ladder_location = none ∧
        (update_crisis_state eng s elapsed c).2.resource_allocation.ladder_eta = some 0) ∧
    (∀ (eng : EngineState) (s : GameState) (elapsed : Int) (c : RandChoice) (e : Int),
      s.resource_allocation.ambulance_1_eta = some e → e ≠ 0 → e ≤ 10 →
        (update_crisis_state eng s elapsed c).2.resource_allocation.ambulance_1_owner = none ∧
        (update_crisis_state eng s elapsed c).2.resource_allocation.ambulance_1_location = none ∧
        (update_crisis_state eng s elapsed c).2.resource_allocation.ambulance_1_eta = some 0) ∧
    (∀ (eng : EngineState) (s : GameState) (elapsed : Int) (c : RandChoice) (e : Int),
      s.resource_allocation.ambulance_2_eta = some e → e ≠ 0 → e ≤ 10 →
        (update_crisis_state eng s elapsed c).2.resource_allocation.ambulance_2_owner = none ∧
        (update_crisis_state eng s elapsed c).2.resource_allocation.ambulance_2_location = none ∧
        (update_crisis_state eng s elapsed c).2.resource_allocation.ambulance_2_eta = some 0) := by
  have hzero : ∀ (o : Option EmergencyTeam) (l : Option CrisisLocation) (e : Int),
      e ≠ 0 → e ≤ 10 → eta_countdown o l (some e) = (none, none, some 0) := by
    intro o l e h0 h10
    have h2 : max 0 (e - 10) = 0 := by omega
    rw [eta_countdown]
    dsimp only
    rw [if_neg h0, if_pos h2, h2]
  refine ⟨?_, ?_, ?_, ?_⟩
  · intro p hp
    induction hp with
    | init =>
      simp [alloc_ownership_inv, triple_ok, init_game]
    | step hp hstep ih =>
      cases hstep with
      | request eng s team res locn dur => exact request_alloc_inv s team res locn dur ih
      | update eng s elapsed c => exact update_alloc_inv eng s elapsed c ih
      | rescue eng s =>
        show alloc_ownership_inv (process_rescue_operations s).2.resource_allocation
        rw [rescue_ops_alloc]
        exact ih
      | record eng s etype teams res locn outcome lives t => exact ih
  · intro eng s elapsed c e he h0 h10
    rw [update_alloc_eq]
    rw [he, hzero _ _ _ h0 h10]
    exact ⟨rfl, rfl, rfl⟩
  · intro eng s elapsed c e he h0 h10
    rw [update_alloc_eq]
    rw [he, hzero _ _ _ h0 h10]
    exact ⟨rfl, rfl, rfl⟩
  · intro eng s elapsed c e he h0 h10
    rw [update_alloc_eq]
    rw [he, hzero _ _ _ h0 h10]
    exact ⟨rfl, rfl, rfl⟩

/-- The state after granting the ladder to Fire at Floor3 for the default
duration of 5 seconds. -/
def ladder_granted : GameState :=
  (process_resource_request init_game EmergencyTeam.FIRE CrisisResource.LADDER
    CrisisLocation.FLOOR_3 5).2

/-- A concrete random draw selecting flash text number 4 ("Structure
collapse"), which has no state effect. -/
def no_effect_choice : RandChoice :=
  { scenario := 3, fire_to_floor3 := true, victim_on_floor2 := true }

/-- C3 counterexample to the claim as stated: one crisis tick after the
grant, the ladder countdown `max(0, 5 - 10)` reaches exactly 0 — the owner
and location are nulled, but the remaining-time field reads 0, not null, on
the next read (`get_team_perspective` exposes `ladder_eta` directly). -/
theorem c3_eta_not_null_counterexample :
    (update_crisis_state eng_init ladder_granted 5 no_effect_choice).2.resource_allocation.ladder_owner
        = none ∧
    (update_crisis_state eng_init ladder_granted 5 no_effect_choice).2.resource_allocation.ladder_location
        = none ∧
    (update_crisis_state eng_init ladder_granted 5 no_effect_choice).2.resource_allocation.ladder_eta
        = some 0 ∧
    ¬ (update_crisis_state eng_init ladder_granted 5 no_effect_choice).2.resource_allocation.ladder_eta
        = none := by
  refine ⟨?_, ?_, ?_, ?_⟩ <;> decide

theorem c3_ownership_triple_witness :
    alloc_ownership_inv init_game.resource_allocation ∧
    ((update_crisis_state eng_init ladder_granted 5 no_effect_choice).2.resource_allocation.ladder_owner
        = none ∧
     (update_crisis_state eng_init ladder_granted 5 no_effect_choice).2.resource_allocation.ladder_location
        = none ∧
     (update_crisis_state eng_init ladder_granted 5 no_effect_choice).2.resource_allocation.ladder_eta
        = some 0) :=
  ⟨c3_ownership_triple.1 (eng_init, init_game) GameReachable.init,
   c3_ownership_triple.2.1 eng_init ladder_granted 5 no_effect_choice 5
     (by decide) (by decide) (by decide)⟩

/-- The claimed bounds: gas pressure and building stability within [0, 10]
and no non-positive victim-count entry. -/
def crisis_ok (cs : CrisisState) : Prop :=
  0 ≤ cs.gas_pressure_level ∧ cs.gas_pressure_level ≤ 10 ∧
  0 ≤ cs.building_stability ∧ cs.building_stability ≤ 10 ∧
  ∀ p ∈ cs.victim_locations, 0 < p.2

theorem mem_dict_set (d : List (CrisisLocation × Int)) (k : CrisisLocation) (v : Int) :
    ∀ p ∈ dict_set d k v, p = (k, v) ∨ p ∈ d := by
  induction d with
  | nil =>
    intro p hp
    rw [dict_set] at hp
    exact Or.inl (List.mem_singleton.1 hp)
  | cons q rest ih =>
    intro p hp
    rw [dict_set] at hp
    by_cases hq : q.1 = k
    · rw [if_pos hq] at hp
      rcases List.mem_cons.1 hp with rfl | hp
      · exact Or.inl rfl
      · exact Or.inr (List.mem_cons_of_mem _ hp)
    · rw [if_neg hq] at hp
      rcases List.mem_cons.1 hp with rfl | hp
      · exact Or.inr (List.mem_cons_self _ _)
      · rcases ih p hp with h | h
        · exact Or.inl h
        · exact Or.inr (List.mem_cons_of_mem _ h)

theorem dict_del_set_mem (d : List (CrisisLocation × Int)) (k : CrisisLocation) (v : Int) :
    ∀ p ∈ dict_del (dict_set d k v) k, p ∈ d := by
  induction d with
  | nil =>
    intro p hp
    rw [dict_set, dict_del] at hp
    simp at hp
  | cons q rest ih =>
    intro p hp
    rw [dict_set] at hp
    by_cases hq : q.1 = k
    · rw [if_pos hq, dict_del, if_pos rfl] at hp
      exact List.mem_cons_of_mem _ hp
    · rw [if_neg hq, dict_del, if_neg hq] at hp
      rcases List.mem_cons.1 hp with rfl | hp
      · exact List.mem_cons_self _ _
      · exact List.mem_cons_of_mem _ (ih p hp)

theorem reduce_victims_pos (d : List (CrisisLocation × Int)) (k : CrisisLocation) (m : Int)
    (h : ∀ p ∈ d, 0 < p.2) : ∀ p ∈ reduce_victims d k m, 0 < p.2 := by
  intro p hp
  rw [reduce_victims] at hp
  by_cases hle : dict_getD (dict_set d k (dict_getD d k 0 - m)) k 0 ≤ 0
  · rw [if_pos hle] at hp
    exact h p (dict_del_set_mem _ _ _ p hp)
  · rw [if_neg hle] at hp
    rcases mem_dict_set _ _ _ p hp with rfl | hmem
    · have hv : dict_getD (dict_set d k (dict_getD d k 0 - m)) k 0 = dict_getD d k 0 - m := by
        rw [dict_getD, dict_get_set_self]
        rfl
      rw [hv] at hle
      exact not_le.1 hle
    · exact h p hmem

theorem getD_succ_pos (d : List (CrisisLocation × Int)) (k : CrisisLocation)
    (h : ∀ p ∈ d, 0 < p.2) : 0 < dict_getD d k 0 + 1 := by
  rcases hg : dict_get d k with _ | v
  · rw [dict_getD, hg]
    norm_num
  · rw [dict_getD, hg]
    have hvv : 0 < v := h (k, v) (dict_get_mem hg)
    simp only [Option.getD_some]
    omega

theorem trigger_crisis_ok (s : GameState) (c : RandChoice) (h : crisis_ok s.crisis_state) :
    crisis_ok (trigger_crisis_event s c).crisis_state := by
  obtain ⟨hg0, hg1, hb0, hb1, hv⟩ := h
  rw [trigger_crisis_event]
  match c with
  | ⟨0, f3, v2⟩ =>
    dsimp only
    split_ifs <;> exact ⟨hg0, hg1, hb0, hb1, hv⟩
  | ⟨1, f3, v2⟩ =>
    dsimp only
    refine ⟨hg0, hg1, hb0, hb1, ?_⟩
    intro p hp
    rcases mem_dict_set _ _ _ p hp with rfl | hmem
    · exact getD_succ_pos _ _ hv
    · exact hv p hmem
  | ⟨2, f3, v2⟩ =>
    simp only [crisis_ok]
    refine ⟨?_, ?_, hb0, hb1, hv⟩ <;> omega
  | ⟨k + 3, f3, v2⟩ => exact ⟨hg0, hg1, hb0, hb1, hv⟩

theorem deteriorate_crisis_ok (s : GameState) (h : crisis_ok s.crisis_state) :
    crisis_ok (deteriorate s).crisis_state := by
  obtain ⟨hg0, hg1, hb0, hb1, hv⟩ := h
  simp only [deteriorate, crisis_ok]
  refine ⟨?_, ?_, ?_, ?_, hv⟩ <;> split_ifs <;> omega

theorem update_crisis_ok (eng : EngineState) (s : GameState) (elapsed : Int)
    (c : RandChoice) (h : crisis_ok s.crisis_state) :
    crisis_ok (update_crisis_state eng s elapsed c).2.crisis_state := by
  rw [update_crisis_state]
  dsimp only
  by_cases hf : eng.next_crisis_time ≤ elapsed
  · rw [if_pos hf]
    by_cases hd : Int.emod elapsed 20 = 0
    · rw [if_pos hd]
      exact deteriorate_crisis_ok _ (trigger_crisis_ok _ _ h)
    · rw [if_neg hd]
      exact trigger_crisis_ok _ _ h
  · rw [if_neg hf]
    by_cases hd : Int.emod elapsed 20 = 0
    · rw [if_pos hd]
      exact deteriorate_crisis_ok _ h
    · rw [if_neg hd]
      exact h

theorem execute_rescue_cs (s : GameState) (locn : CrisisLocation) (m : Int) :
    (execute_rescue s locn m).2.crisis_state =
      { s.crisis_state with victim_locations :=
          (reduce_victims s.crisis_state.victim_locations locn m) } := by
  show (record_coordination_event _ _ _ _ _ _ _ _).crisis_state = _
  rw [record_coordination_event]
  exact (award_fields _ _ _).2.1

theorem execute_crisis_ok (s : GameState) (locn : CrisisLocation) (m : Int)
    (h : crisis_ok s.crisis_state) : crisis_ok (execute_rescue s locn m).2.crisis_state := by
  rw [execute_rescue_cs]
  obtain ⟨hg0, hg1, hb0, hb1, hv⟩ := h
  exact ⟨hg0, hg1, hb0, hb1, reduce_victims_pos _ _ _ hv⟩

theorem rescue_pass_crisis_ok (lst : List (CrisisLocation × Int)) (s : GameState)
    (h : crisis_ok s.crisis_state) : crisis_ok (rescue_pass lst s).2.crisis_state := by
  induction lst generalizing s with
  | nil => exact h
  | cons p rest ih =>
    obtain ⟨l0, c0⟩ := p
    rw [rescue_pass]
    split_ifs with h1 h2
    · dsimp only
      exact ih _ (execute_crisis_ok _ _ _ h)
    · exact ih _ h
    · exact ih _ h

theorem request_cs (s : GameState) (team : EmergencyTeam) (res : CrisisResource)
    (locn : CrisisLocation) (dur : Int) :
    (process_resource_request s team res locn dur).2.crisis_state = s.crisis_state := by
  cases res
  · rcases ho : s.resource_allocation.ladder_owner with _ | t <;>
      simp [process_resource_request, ho]
  · rcases ho : s.resource_allocation.ambulance_1_owner with _ | t <;>
      simp [process_resource_request, ho]
  · rcases ho : s.resource_allocation.ambulance_2_owner with _ | t <;>
      simp [process_resource_request, ho]
  · rfl
  · rfl
  · rfl

/-- C9: every reachable state keeps gas pressure and building stability in
[0, 10] and every victim-count entry positive, and each core operation
(crisis-state update, crisis-event trigger, rescue execution and the rescue
pass) preserves these predicates. -/
theorem c9_state_bounds :
    (∀ p : EngineState × GameState, GameReachable p → crisis_ok p.2.crisis_state) ∧
    (∀ (eng : EngineState) (s : GameState) (elapsed : Int) (c : RandChoice),
      crisis_ok s.crisis_state →
        crisis_ok (update_crisis_state eng s elapsed c).2.crisis_state) ∧
    (∀ (s : GameState) (c : RandChoice), crisis_ok s.crisis_state →
      crisis_ok (trigger_crisis_event s c).crisis_state) ∧
    (∀ (s : GameState) (locn : CrisisLocation) (m : Int), crisis_ok s.crisis_state →
      crisis_ok (execute_rescue s locn m).2.crisis_state) ∧
    (∀ s : GameState, crisis_ok s.crisis_state →
      crisis_ok (process_rescue_operations s).2.crisis_state) := by
  refine ⟨?_, update_crisis_ok, trigger_crisis_ok, execute_crisis_ok,
    fun s h => rescue_pass_crisis_ok _ _ h⟩
  intro p hp
  induction hp with
  | init =>
    refine ⟨by decide, by decide, by decide, by decide, ?_⟩
    decide
  | step hp hstep ih =>
    cases hstep with
    | request eng s team res locn dur =>
      show crisis_ok (process_resource_request s team res locn dur).2.crisis_state
      rw [request_cs]
      exact ih
    | update eng s elapsed c => exact update_crisis_ok eng s elapsed c ih
    | rescue eng s => exact rescue_pass_crisis_ok _ _ ih
    | record eng s etype teams res locn outcome lives t => exact ih

theorem c9_state_bounds_witness :
    crisis_ok init_game.crisis_state ∧
    crisis_ok (update_crisis_state eng_init init_game 20 no_effect_choice).2.crisis_state ∧
    crisis_ok (trigger_crisis_event init_game no_effect_choice).crisis_state ∧
    crisis_ok (execute_rescue init_game CrisisLocation.LOBBY 2).2.crisis_state ∧
    crisis_ok (process_rescue_operations init_game).2.crisis_state :=
  ⟨c9_state_bounds.1 (eng_init, init_game) GameReachable.init,
   c9_state_bounds.2.1 eng_init init_game 20 no_effect_choice
     (c9_state_bounds.1 (eng_init, init_game) GameReachable.init),
   c9_state_bounds.2.2.1 init_game no_effect_choice
     (c9_state_bounds.1 (eng_init, init_game) GameReachable.init),
   c9_state_bounds.2.2.2.1 init_game CrisisLocation.LOBBY 2
     (c9_state_bounds.1 (eng_init, init_game) GameReachable.init),
   c9_state_bounds.2.2.2.2 init_game
     (c9_state_bounds.1 (eng_init, init_game) GameReachable.init)⟩

theorem c2_tick_fault_ends_game_witness :
    start_game_loop 300 (fun n => 5 * n) false (fun _ => false) (fun _ => false) 0 60 =
      { end_reasons := ["Game ended"], scorer_calls := 1, ticks_started := 1,
        still_running := false } := by
  have h := c2_tick_fault_ends_game 300 (fun n => 5 * n) false (fun _ => false)
    (fun _ => false) 0 0 60 (by omega)
    (fun j h1 h2 => by
      have hj : j = 0 := by omega
      subst hj
      norm_num)
    (fun j h1 h2 => rfl)
    (fun j h1 h2 => absurd h2 (by omega))
    (Or.inl ⟨rfl, rfl⟩) le_rfl
  exact h

theorem c4_resource_request_witness :
    process_resource_request init_game EmergencyTeam.FIRE CrisisResource.LADDER
        CrisisLocation.FLOOR_3 5 =
      (true, { init_game with resource_allocation :=
        ({ init_game.resource_allocation with
            ladder_owner := some EmergencyTeam.FIRE
            ladder_location := some CrisisLocation.FLOOR_3
            ladder_eta := some 5 }) }) ∧
    process_resource_request ladder_granted EmergencyTeam.MEDICAL CrisisResource.LADDER
        CrisisLocation.LOBBY 7 = (false, ladder_granted) :=
  ⟨(c4_resource_request_spec init_game EmergencyTeam.FIRE CrisisLocation.FLOOR_3 5).2.1 rfl,
   (c4_resource_request_spec ladder_granted EmergencyTeam.MEDICAL CrisisLocation.LOBBY 7).1
     (by decide)⟩

theorem c10_untracked_resource_witness :
    process_resource_request init_game EmergencyTeam.POLICE CrisisResource.EVAC_ROUTE
        CrisisLocation.EXTERIOR 5 = (false, init_game) :=
  c10_untracked_resource_request init_game EmergencyTeam.POLICE CrisisResource.EVAC_ROUTE
    CrisisLocation.EXTERIOR 5 (by decide) (by decide) (by decide)

/-- The state of end-to-end scenario A after both grants: ladder to Fire at
Floor3, ambulance-1 to Medical at Floor3 (the fresh state already holds
{Floor3: 2} among its victims). -/
def scenario_a_state : GameState :=
  (process_resource_request ladder_granted EmergencyTeam.MEDICAL CrisisResource.AMBULANCE_1
    CrisisLocation.FLOOR_3 5).2

theorem c5_rescue_precondition_witness :
    ((CrisisLocation.FLOOR_3 ∈
        (process_rescue_operations scenario_a_state).1.map RescuedRec.location) ↔
      can_rescue_spec scenario_a_state CrisisLocation.FLOOR_3 = true) ∧
    can_rescue_at_location scenario_a_state CrisisLocation.FLOOR_3 =
      can_rescue_spec scenario_a_state CrisisLocation.FLOOR_3 :=
  c5_rescue_precondition scenario_a_state CrisisLocation.FLOOR_3 2 (by decide) (by decide)

theorem c6_rescue_effects_witness :
    dict_get (execute_rescue scenario_a_state CrisisLocation.FLOOR_3
        (min 2 2)).2.crisis_state.victim_locations CrisisLocation.FLOOR_3 =
      (if (2 : Int) ≤ 2 then none else some (2 - 2)) ∧
    ((execute_rescue scenario_a_state CrisisLocation.FLOOR_3 (min 2 2)).2.team_statuses
        EmergencyTeam.FIRE).victims_saved =
      (scenario_a_state.team_statuses EmergencyTeam.FIRE).victims_saved +
        Int.fdiv (min 2 2) 2 ∧
    ((execute_rescue scenario_a_state CrisisLocation.FLOOR_3 (min 2 2)).2.team_statuses
        EmergencyTeam.MEDICAL).victims_saved =
      (scenario_a_state.team_statuses EmergencyTeam.MEDICAL).victims_saved +
        (Int.fdiv (min 2 2) 2 + Int.fmod (min 2 2) 2) ∧
    (execute_rescue scenario_a_state CrisisLocation.FLOOR_3 (min 2 2)).2.coordination_events =
      scenario_a_state.coordination_events ++
        [{ event_type := "SUCCESSFUL_RESCUE"
           teams_involved := (execute_rescue scenario_a_state CrisisLocation.FLOOR_3 (min 2 2)).1
           resource := none, location := some CrisisLocation.FLOOR_3, outcome := "SUCCESS"
           lives_saved := min 2 2, time_saved := 30 }] := by
  have h := c6_rescue_effects scenario_a_state CrisisLocation.FLOOR_3 2
    (by decide) (by decide) (by decide) (by decide)
  exact ⟨h.1, (h.2.1 (Or.inl rfl)).1, (h.2.1 (Or.inl rfl)).2, h.2.2.2.2⟩

/-- C8 counterexample to the claim as stated: the deterioration schedule is
modulo-derived, not an independent counter.  Two consecutive update calls at
the same elapsed time 20 fire the deterioration twice (stability 7 → 6 → 5)
while the genuinely counter-based crisis-event schedule fires only once (the
counter moves 15 → 30 and stays); and a call at elapsed 35 — a full period
past the last deterioration at 0 — fires no deterioration at all. -/
theorem c8_modulo_counterexample :
    (update_crisis_state eng_init init_game 20 no_effect_choice).2.crisis_state.building_stability
        = 6 ∧
    (update_crisis_state
        (update_crisis_state eng_init init_game 20 no_effect_choice).1
        (update_crisis_state eng_init init_game 20 no_effect_choice).2
        20 no_effect_choice).2.crisis_state.building_stability = 5 ∧
    (update_crisis_state eng_init init_game 20 no_effect_choice).1.next_crisis_time = 30 ∧
    (update_crisis_state
        (update_crisis_state eng_init init_game 20 no_effect_choice).1
        (update_crisis_state eng_init init_game 20 no_effect_choice).2
        20 no_effect_choice).1.next_crisis_time = 30 ∧
    (update_crisis_state eng_init init_game 35 no_effect_choice).2.crisis_state.building_stability
        = 7 := by
  refine ⟨?_, ?_, ?_, ?_, ?_⟩ <;> decide

theorem c8_schedule_behaviour_witness :
    (update_crisis_state eng_init init_game 20 no_effect_choice).1.next_crisis_time =
      (if eng_init.next_crisis_time ≤ 20 then eng_init.next_crisis_time + 15
       else eng_init.next_crisis_time) ∧
    (update_crisis_state eng_init init_game 20 no_effect_choice).2.crisis_state.crisis_events =
      init_game.crisis_state.crisis_events ++ [CrisisEvent.FIRE_SPREADING] ∧
    (update_crisis_state eng_init init_game 20 no_effect_choice).2.crisis_state.building_stability =
      (if 2 < init_game.crisis_state.building_stability then
        init_game.crisis_state.building_stability - 1
       else init_game.crisis_state.building_stability) := by
  have h := c8_schedule_behaviour eng_init init_game 20 no_effect_choice
  exact ⟨h.1, h.2.2.1 (by decide), h.2.2.2.2 (by decide)⟩
